import Mathlib

/- Shallow embedding of the water-rs/reactive crate: the Map combinator
   (src/src/map.rs) and the add combinator (src/src/utils.rs), together with
   spec-modelled collaborators (the leaf Binding with its watcher list and
   WatcherGuard, and Zip), and proofs of the specification claims.

   Modelling choices:
   - The graph state is the value of the single leaf Binding all nodes in a
     scenario derive from; a type parameter sigma stands for it.
   - A Rust watcher is a closure notify(value, metadata); such a closure may
     capture reactive handles (exactly as the forwarding closure built by
     Map::add_watcher captures a clone of the Map) and hence read the live
     graph state when it fires. The embedding makes this explicit: a watcher
     is a function of (live state, notified value, metadata) returning the
     list of events it emits, so delivery order and delivery counts are
     observable in the concatenated event list a write returns.
   - A Map owns no watcher list; registration on a Map nests a forwarding
     closure around the user watcher and hands it to the source, bottoming
     out at the leaf that owns the only list. The pure part of add_watcher
     (closure composition) is the field `register`; the stateful part
     (appending to the leaf's list, producing the guard) is
     Binding.add_watcher / add_watcher_on. -/

namespace Reactive

variable {σ α β γ μ ε : Type}

/-- A watcher callback: receives the live graph state, the notified value and
the metadata, and returns the list of events it emits during that delivery. -/
def Watcher (σ α μ ε : Type) : Type := σ → α → μ → List ε

/-- The Compute capability (the Rust trait `Compute`): compute-on-demand from
the live graph state, plus watcher registration. `register` is the pure
closure-composition part of add_watcher: it yields the leaf-level closure
that the leaf owning the watcher list will store. -/
structure Compute (σ α μ ε : Type) : Type where
  compute : σ → α
  register : Watcher σ α μ ε → Watcher σ σ μ ε

/-- The Map node of src/src/map.rs: a source Compute and a transform f held
behind an Rc. The struct stores nothing else — no cached value, no
invalidation flag, no watcher list — exactly as the Rust struct has only the
fields `source`, `f` and a PhantomData marker. -/
structure Map (σ α β μ ε : Type) : Type where
  source : Compute σ α μ ε
  f : α → β

/-- Map::new (src/src/map.rs): stores `source` and `f` (behind Rc::new) and
does nothing else. -/
def Map.new (source : Compute σ α μ ε) (f : α → β) : Map σ α β μ ε :=
  { source := source, f := f }

/-- The helper map(source, f) (src/src/map.rs): delegates to Map::new. -/
def map (source : Compute σ α μ ε) (f : α → β) : Map σ α β μ ε :=
  Map.new source f

/-- Clone for Map (src/src/map.rs): clones the source handle and the Rc of
the transform. Rc::clone yields the very same shared instance and the source
uses shared ownership, so in the embedding both fields carry over unchanged. -/
def Map.clone (m : Map σ α β μ ε) : Map σ α β μ ε :=
  { source := m.source, f := m.f }

/-- Map::compute (src/src/map.rs): (self.f)(self.source.compute()). -/
def Map.compute (m : Map σ α β μ ε) : σ → β :=
  fun s => m.f (m.source.compute s)

/-- The forwarding closure Map::add_watcher installs on the source
(src/src/map.rs): move |_value, metadata| watcher.notify(this.compute(),
metadata) — it drops the notified payload, recomputes this Map from the live
state at delivery time, and passes the metadata through unchanged. -/
def Map.forward (m : Map σ α β μ ε) (w : Watcher σ β μ ε) : Watcher σ α μ ε :=
  fun s _value md => w s (m.compute s) md

/-- Map::add_watcher (src/src/map.rs): registers the forwarding closure on
the source and returns whatever the source's registration returns. -/
def Map.add_watcher (m : Map σ α β μ ε) (w : Watcher σ β μ ε) :
    Watcher σ σ μ ε :=
  m.source.register (m.forward w)

/-- The Compute implementation of Map (src/src/map.rs, impl Compute for Map). -/
def Map.to_compute (m : Map σ α β μ ε) : Compute σ β μ ε :=
  { compute := m.compute, register := m.add_watcher }

/-- Modelled from the spec: the leaf Binding (its source file is not under
src/). Spec sections 2, 3 and 5: a leaf reactive cell storing one value that
owns its watcher list and fires it on write; a WatcherGuard controls exactly
one subscription. The guard is a numeric id and the list keeps (id, watcher)
pairs in registration order. -/
structure Binding (σ μ ε : Type) : Type where
  value : σ
  watchers : List (Nat × Watcher σ σ μ ε)
  next_id : Nat

/-- Modelled from the spec: a fresh Binding holding v with no watchers. -/
def Binding.new (v : σ) : Binding σ μ ε :=
  { value := v, watchers := [], next_id := 0 }

/-- Modelled from the spec: the Binding as the leaf Compute. Its compute()
reads the stored value (which is the graph state itself), and registering on
the leaf stores the given closure unchanged — the leaf is where the closure
nesting of derived nodes bottoms out. -/
def Binding.as_compute : Compute σ σ μ ε :=
  { compute := fun s => s, register := fun w => w }

/-- Modelled from the spec (section 4.1: registration never fires the watcher
synchronously): Binding::add_watcher appends the watcher under a fresh guard
id and returns that guard. -/
def Binding.add_watcher (b : Binding σ μ ε) (w : Watcher σ σ μ ε) :
    Binding σ μ ε × Nat :=
  ({ b with watchers := b.watchers ++ [(b.next_id, w)], next_id := b.next_id + 1 },
   b.next_id)

/-- Modelled from the spec (section 3: releasing a WatcherGuard deregisters
exactly the subscription it covers): drop the watcher carrying the guard id. -/
def Binding.release (b : Binding σ μ ε) (g : Nat) : Binding σ μ ε :=
  { b with watchers := b.watchers.filter (fun p => p.1 != g) }

/-- Modelled from the spec (sections 2 and 5: a leaf write stores the new
value, then synchronously notifies every currently registered watcher, in
registration order, with the new value and the write's metadata, before the
write returns). The second component is the concatenation, in delivery order,
of the events the watchers emitted during this write. -/
def Binding.write (b : Binding σ μ ε) (v : σ) (md : μ) :
    Binding σ μ ε × List ε :=
  ({ b with value := v },
   (b.watchers.map (fun p => p.2 v v md)).flatten)

/-- The full stateful add_watcher call for a node computed over a Binding: it
appends the composed leaf-level closure to the leaf's list and reports the
guard together with the events emitted during the call — none, since neither
Map::add_watcher (whose body only clones the Map and builds a closure) nor
the leaf's registration invokes any watcher. -/
def add_watcher_on (b : Binding σ μ ε) (node : Compute σ γ μ ε)
    (w : Watcher σ γ μ ε) : Binding σ μ ε × Nat × List ε :=
  let r := b.add_watcher (node.register w)
  (r.1, r.2, [])

/-- State-passing form of Map::new over the leaf Binding: the constructor
body (src/src/map.rs) only stores its two arguments, performing no
registration, so the Binding threads through unchanged. -/
def Map.new_st (source : Compute σ α μ ε) (f : α → β) (b : Binding σ μ ε) :
    Map σ α β μ ε × Binding σ μ ε :=
  (Map.new source f, b)

/-- Builds n Map wrappers over the same source, threading the leaf Binding
through each Map::new call. -/
def mk_maps (n : Nat) (source : Compute σ α μ ε) (f : α → β)
    (b : Binding σ μ ε) : List (Map σ α β μ ε) × Binding σ μ ε :=
  match n with
  | 0 => ([], b)
  | n + 1 =>
      let r := mk_maps n source f b
      let r2 := Map.new_st source f r.2
      (r2.1 :: r.1, r2.2)

/-- State-passing form of Map::compute over the leaf Binding: the body
(src/src/map.rs) reads the live source and applies the transform through a
shared reference; it mutates nothing, so the Binding comes back unchanged. -/
def Map.compute_st (m : Map σ α β μ ε) (b : Binding σ μ ε) :
    β × Binding σ μ ε :=
  (m.compute b.value, b)

/-- Modelled from the spec: Zip (its source file is not under src/). Spec
sections 1, 2 and 6: it combines two Compute sources into a Compute of a
pair, with zip(a, b).compute() equal to the pair of the two sources' computed
values; its registration forwards a notification of its first source with the
freshly computed pair. Only its compute contract is relied on by any claim. -/
def zip (a : Compute σ α μ ε) (b : Compute σ β μ ε) : Compute σ (α × β) μ ε :=
  { compute := fun s => (a.compute s, b.compute s)
    register := fun w => a.register (fun s _v md => w s (a.compute s, b.compute s) md) }

/-- The add combinator (src/src/utils.rs): zips the two sources and maps the
pair through the addition of its components. -/
def add [HAdd α β γ] (a : Compute σ α μ ε) (b : Compute σ β μ ε) :
    Map σ (α × β) γ μ ε :=
  map (zip a b) (fun p => p.1 + p.2)

/-- C1: for every source, pure transform f and graph state, map(source, f)
computes f(source.compute()): compute always recomputes, applying the
transform exactly once to the value freshly obtained from the source. -/
theorem map_compute_eq (source : Compute σ α μ ε) (f : α → β) (s : σ) :
    (map source f).compute s = f (source.compute s) := rfl

/-- C2: Map::add_watcher installs on the source — not on the Map — the
forwarding closure; on every delivery that closure ignores the raw notified
payload, recomputes the Map's current value via compute() from the live
state, and invokes the caller's watcher with that value and the metadata
passed through unchanged. -/
theorem add_watcher_forwards (m : Map σ α β μ ε) (w : Watcher σ β μ ε) :
    m.add_watcher w = m.source.register (m.forward w)
      ∧ (∀ s v v' md, m.forward w s v md = m.forward w s v' md)
      ∧ (∀ s v md, m.forward w s v md = w s (m.compute s) md) :=
  ⟨rfl, fun _ _ _ _ => rfl, fun _ _ _ => rfl⟩

/-- C3: Map::new registers nothing on the source, and constructing n Map
wrappers on a source without ever calling add_watcher leaves the leaf's
registered-watcher count unchanged. -/
theorem new_registers_nothing (n : Nat) (source : Compute σ α μ ε)
    (f : α → β) (b : Binding σ μ ε) :
    (Map.new_st source f b).2 = b
      ∧ ((mk_maps n source f b).2).watchers.length = b.watchers.length := by
  refine ⟨rfl, ?_⟩
  induction n with
  | zero => rfl
  | succ n ih => simpa [mk_maps, Map.new_st] using ih

/-- C4: the transform is never applied to a stale source value: compute
re-reads the source at call time, the forwarding closure recomputes from the
live state whatever payload was notified, the Map struct holds nothing beyond
its source and transform (no cached value or invalidation flag), and the
value delivered during a leaf write is the transform of the freshly written
leaf value, whatever the leaf held before. -/
theorem transform_never_stale (m : Map σ α β μ ε) :
    (∀ s, m.compute s = m.f (m.source.compute s))
      ∧ (∀ (w : Watcher σ β μ ε) s v md,
          m.forward w s v md = w s (m.f (m.source.compute s)) md)
      ∧ m = Map.new m.source m.f
      ∧ (∀ (f2 : σ → β) (w : Watcher σ β μ ε) (a v : σ) (md : μ),
          ((add_watcher_on (Binding.new a)
              (Map.new Binding.as_compute f2).to_compute w).1.write v md).2
            = w v (f2 v) md) := by
  refine ⟨fun _ => rfl, fun _ _ _ _ => rfl, rfl, fun f2 w a v md => ?_⟩
  simp [add_watcher_on, Binding.add_watcher, Binding.new, Binding.write,
    Binding.as_compute, Map.to_compute, Map.add_watcher, Map.forward,
    Map.compute, Map.new]

/-- C5: a single leaf write delivers, before it returns, to every currently
registered watcher in registration order — the watcher registered first
strictly before the one registered second — and a transitively dependent
watcher (here registered on a Map over the Map) observes the new value
exactly once: the write's event list is exactly one event per watcher, in
registration order, at the freshly transformed values. -/
theorem write_notifies_in_order (f g : σ → σ) (a v : σ) (md : μ)
    (e1 e2 e3 : σ → μ → ε) :
    ((add_watcher_on
        (add_watcher_on
          (add_watcher_on (Binding.new a)
            (Map.new Binding.as_compute f).to_compute
            (fun _ val mm => [e1 val mm])).1
          (Map.new Binding.as_compute f).to_compute
          (fun _ val mm => [e2 val mm])).1
        (Map.new (Map.new Binding.as_compute f).to_compute g).to_compute
        (fun _ val mm => [e3 val mm])).1.write v md).2
      = [e1 (f v) md, e2 (f v) md, e3 (g (f v)) md] := by
  simp [add_watcher_on, Binding.add_watcher, Binding.new, Binding.write,
    Binding.as_compute, Map.to_compute, Map.add_watcher, Map.forward,
    Map.compute, Map.new]

/-- C6: add_watcher on a Map returns exactly the guard produced by the
source's registration; and after releasing the guard of the first of two
watchers, a subsequent leaf write delivers nothing through the released
subscription while still delivering to the watcher still registered. -/
theorem guard_release_semantics (f : σ → σ) (a v : σ) (md : μ)
    (w1 w2 : Watcher σ σ μ ε) :
    (∀ (b : Binding σ μ ε) (m : Map σ α β μ ε) (w : Watcher σ β μ ε),
        (add_watcher_on b m.to_compute w).2.1
          = (b.add_watcher (m.source.register (m.forward w))).2)
      ∧ (((add_watcher_on
            (add_watcher_on (Binding.new a)
              (Map.new Binding.as_compute f).to_compute w1).1
            (Map.new Binding.as_compute f).to_compute w2).1.release
          (add_watcher_on (Binding.new a)
            (Map.new Binding.as_compute f).to_compute w1).2.1).write v md).2
          = w2 v (f v) md := by
  refine ⟨fun _ _ _ => rfl, ?_⟩
  simp [add_watcher_on, Binding.add_watcher, Binding.new, Binding.write,
    Binding.release, Binding.as_compute, Map.to_compute, Map.add_watcher,
    Map.forward, Map.compute, Map.new]

/-- C7: registering a watcher on a Map emits no notification during the call
itself; the watcher fires only on a subsequent upstream change, where it
receives the freshly transformed value. -/
theorem add_watcher_no_sync_fire (m : Map σ α β μ ε) (b : Binding σ μ ε)
    (w : Watcher σ β μ ε) :
    (add_watcher_on b m.to_compute w).2.2 = ([] : List ε)
      ∧ (∀ (f2 : σ → β) (w2 : Watcher σ β μ ε) (a v : σ) (md : μ),
          ((add_watcher_on (Binding.new a)
              (Map.new Binding.as_compute f2).to_compute w2).1.write v md).2
            = w2 v (f2 v) md) := by
  refine ⟨rfl, fun f2 w2 a v md => ?_⟩
  simp [add_watcher_on, Binding.add_watcher, Binding.new, Binding.write,
    Binding.as_compute, Map.to_compute, Map.add_watcher, Map.forward,
    Map.compute, Map.new]

/-- C8: cloning a Map duplicates no transform state: the clone shares the one
transform instance and the source's identity, so it is the same Map and
computes the same value in every graph state. -/
theorem clone_shares_state (m : Map σ α β μ ε) :
    m.clone = m ∧ (m.clone).f = m.f ∧ (m.clone).source = m.source
      ∧ ∀ s, (m.clone).compute s = m.compute s :=
  ⟨rfl, rfl, rfl, fun _ => rfl⟩

/-- C9: compute over a deterministic source with a pure transform mutates
nothing, so repeated compute calls with no intervening write return an
identical result. -/
theorem compute_idempotent (m : Map σ α β μ ε) (b : Binding σ μ ε) :
    (m.compute_st b).2 = b
      ∧ (m.compute_st (m.compute_st b).2).1 = (m.compute_st b).1 :=
  ⟨rfl, rfl⟩

/-- C10: the add combinator built from zip and map computes the sum of its
two sources' values, with zip satisfying its contract of computing the pair
of the sources' values. -/
theorem add_compute_eq [HAdd α β γ] (a : Compute σ α μ ε)
    (b : Compute σ β μ ε) (s : σ) :
    (zip a b).compute s = (a.compute s, b.compute s)
      ∧ (add a b).compute s = a.compute s + b.compute s :=
  ⟨rfl, rfl⟩

end Reactive
